import Mathlib

/-!
Verification of the coverage-statistics scripts of the nf-core-pikavirus
repository: bin/graphs_coverage.py and bin/graphs_coverage_REMODEL.py.

Depths are modelled as integers, weights (fractions of bases at a depth) as
exact rationals.  A pandas dataframe holding one coverage-histogram file is
modelled as a list of rows in file order.
-/

namespace Pikavirus

/-- One line of a coverage-histogram file, as read by graphs_coverage.py
lines 229-232 and graphs_coverage_REMODEL.py lines 238-245: columns
gnm, covDepth, BasesAtThisCoverage, genomeLength, FracOnThisDepth. -/
structure CovRow where
  gnm : String
  covDepth : ℤ
  basesAtThisCoverage : ℤ
  genomeLength : ℤ
  fracOnThisDepth : ℚ
deriving DecidableEq

/-! ### Weighted median (graphs_coverage.py lines 72-76) -/

/-- Running cumulative sums of a column, starting from a partial sum acc:
pandas Series.cumsum. -/
def cumsumFrom (acc : ℚ) : List ℚ → List ℚ
  | [] => []
  | w :: ws => (acc + w) :: cumsumFrom (acc + w) ws

/-- calculate_weighted_median from graphs_coverage.py lines 72-76 (the same
function appears in graphs_coverage_REMODEL.py lines 152-161).  The dataframe
is a list of (value, weight) pairs; cumsum = df[weights].cumsum(),
cutoff = df[weights].sum() * 0.5, and the result is
df[cumsum >= cutoff][values].iloc[0].  iloc[0] of an empty selection raises,
hence the Option result. -/
def calculate_weighted_median (rows : List (ℤ × ℚ)) : Option ℤ :=
  let cumsum := cumsumFrom 0 (rows.map (fun r => r.2))
  let cutoff := (rows.map (fun r => r.2)).sum * (1 / 2)
  (((rows.zip cumsum).filter (fun p => decide (cutoff ≤ p.2))).head?).map
    (fun p => p.1.1)

/-- The crossing rule in the spec's words: walk the rows in order keeping a
running sum (starting at acc) of the weights, and return the value of the
first row at which the running sum reaches or exceeds the cutoff. -/
def firstCrossingFrom (cutoff : ℚ) (acc : ℚ) : List (ℤ × ℚ) → Option ℤ
  | [] => none
  | (d, w) :: rest =>
    if cutoff ≤ acc + w then some d else firstCrossingFrom cutoff (acc + w) rest

theorem median_filter_eq_firstCrossing (cutoff : ℚ) :
    ∀ (rows : List (ℤ × ℚ)) (acc : ℚ),
      ((((rows.zip (cumsumFrom acc (rows.map (fun r => r.2)))).filter
          (fun p => decide (cutoff ≤ p.2))).head?).map (fun p => p.1.1))
        = firstCrossingFrom cutoff acc rows
  | [], _ => rfl
  | (d, w) :: rest, acc => by
    simp only [List.map_cons, cumsumFrom, List.zip_cons_cons, List.filter_cons,
      firstCrossingFrom]
    by_cases h : cutoff ≤ acc + w
    · simp [h]
    · simpa [h] using median_filter_eq_firstCrossing cutoff rest (acc + w)

theorem firstCrossing_isSome (cutoff : ℚ) :
    ∀ (rows : List (ℤ × ℚ)) (acc : ℚ), rows ≠ [] →
      cutoff ≤ acc + (rows.map (fun r => r.2)).sum →
      (firstCrossingFrom cutoff acc rows).isSome
  | [], _, hne, _ => absurd rfl hne
  | (d, w) :: rest, acc, _, hsum => by
    simp only [firstCrossingFrom]
    by_cases h : cutoff ≤ acc + w
    · simp [h]
    · have hrest : rest ≠ [] := by
        rintro rfl
        simp only [List.map_nil, List.sum_nil, List.map_cons, List.sum_cons,
          List.sum_nil, add_zero] at hsum
        exact h hsum
      have hsum2 : cutoff ≤ (acc + w) + (rest.map (fun r => r.2)).sum := by
        simp only [List.map_cons, List.sum_cons] at hsum
        linarith
      simpa [h] using firstCrossing_isSome cutoff rest (acc + w) hrest hsum2

/-- C1: for every contig group whose fraction weights have positive sum, the
weighted median returned by calculate_weighted_median is the depth of the
first row at which the running cumulative sum of the weights reaches or
exceeds half the total weight (first crossing point, never interpolated),
and that first crossing exists. -/
theorem C1_weighted_median_first_crossing (rows : List (ℤ × ℚ))
    (h : 0 < (rows.map (fun r => r.2)).sum) :
    calculate_weighted_median rows
        = firstCrossingFrom ((rows.map (fun r => r.2)).sum * (1 / 2)) 0 rows
      ∧ (calculate_weighted_median rows).isSome := by
  have heq := median_filter_eq_firstCrossing
    ((rows.map (fun r => r.2)).sum * (1 / 2)) rows 0
  have hne : rows ≠ [] := by
    rintro rfl
    simp at h
  have hcut : (rows.map (fun r => r.2)).sum * (1 / 2)
      ≤ 0 + (rows.map (fun r => r.2)).sum := by linarith
  have hsome := firstCrossing_isSome ((rows.map (fun r => r.2)).sum * (1 / 2))
    rows 0 hne hcut
  refine ⟨?_, ?_⟩
  · exact heq
  · unfold calculate_weighted_median
    rw [heq]
    exact hsome

/-- The three rows of the spec's weighted-median example:
(depth 1, frac 0.3), (depth 2, frac 0.3), (depth 3, frac 0.4). -/
def medianExampleRows : List (ℤ × ℚ) := [(1, 3 / 10), (2, 3 / 10), (3, 4 / 10)]

/-- C1 witness: on the example rows the total weight is positive and the
weighted median is 2 (the first crossing), not 3. -/
theorem C1_weighted_median_first_crossing_witness :
    0 < ((medianExampleRows.map (fun r => r.2)).sum)
      ∧ calculate_weighted_median medianExampleRows = some 2 := by
  have hpos : 0 < ((medianExampleRows.map (fun r => r.2)).sum) := by
    norm_num [medianExampleRows]
  refine ⟨hpos, ?_⟩
  rw [(C1_weighted_median_first_crossing medianExampleRows hpos).1]
  norm_num [medianExampleRows, firstCrossingFrom]

/-! ### Weighted mean and standard deviation (graphs_coverage.py lines 66-70) -/

/-- numpy's np.average(values, weights): the weighted sum divided by the sum
of the weights.  np.average raises ZeroDivisionError when the weights sum to
zero, hence the Option result. -/
def np_average (values weights : List ℚ) : Option ℚ :=
  if weights.sum = 0 then none
  else some ((List.zipWith (fun v w => v * w) values weights).sum / weights.sum)

/-- weighted_avg_and_std from graphs_coverage.py lines 66-70 (identical in
graphs_coverage_REMODEL.py lines 140-150): average = np.average(df[values],
weights=df[weights]); variance = np.average((df[values]-average)**2,
weights=df[weights]); returns (average, variance**0.5).  The dataframe is a
list of (value, weight) pairs; variance**0.5 is the real square root. -/
noncomputable def weighted_avg_and_std (rows : List (ℤ × ℚ)) :
    Option (ℚ × ℝ) :=
  match np_average (rows.map (fun r => (r.1 : ℚ))) (rows.map (fun r => r.2)) with
  | none => none
  | some average =>
    match np_average (rows.map (fun r => ((r.1 : ℚ) - average) ^ 2))
        (rows.map (fun r => r.2)) with
    | none => none
    | some variance => some (average, Real.sqrt (variance : ℝ))

/-- The weighted mean in the spec's words:
sum(depth_i * fraction_i) / sum(fraction_i). -/
def spec_weighted_mean (rows : List (ℤ × ℚ)) : ℚ :=
  (rows.map (fun r => (r.1 : ℚ) * r.2)).sum / (rows.map (fun r => r.2)).sum

/-- The weighted variance in the spec's words:
sum(fraction_i * (depth_i - mean)^2) / sum(fraction_i). -/
def spec_weighted_variance (rows : List (ℤ × ℚ)) : ℚ :=
  (rows.map (fun r => r.2 * ((r.1 : ℚ) - spec_weighted_mean rows) ^ 2)).sum
    / (rows.map (fun r => r.2)).sum

theorem zipWith_mul_map {α : Type} (f g : α → ℚ) (l : List α) :
    List.zipWith (fun v w => v * w) (l.map f) (l.map g)
      = l.map (fun a => f a * g a) := by
  induction l with
  | nil => rfl
  | cons a l ih => simp [ih]

theorem sum_map_mul_comm {α : Type} (f g : α → ℚ) (l : List α) :
    (l.map (fun a => f a * g a)).sum = (l.map (fun a => g a * f a)).sum := by
  induction l with
  | nil => rfl
  | cons a l ih => simp [ih, mul_comm]

/-- C2: for every contig group with at least one row and positive total
weight, weighted_avg_and_std returns the mean sum(d_i * f_i) / sum(f_i) and
the standard deviation sqrt(sum(f_i * (d_i - mean)^2) / sum(f_i)), dividing
by the actual sum of the weights rather than assuming the fractions sum
to 1. -/
theorem C2_weighted_avg_and_std_formulas (rows : List (ℤ × ℚ))
    (hne : rows ≠ []) (h : 0 < (rows.map (fun r => r.2)).sum) :
    weighted_avg_and_std rows
      = some (spec_weighted_mean rows,
              Real.sqrt ((spec_weighted_variance rows : ℚ) : ℝ)) := by
  have hne0 : (rows.map (fun r => r.2)).sum ≠ 0 := ne_of_gt h
  have havg : np_average (rows.map (fun r => (r.1 : ℚ)))
      (rows.map (fun r => r.2)) = some (spec_weighted_mean rows) := by
    unfold np_average spec_weighted_mean
    rw [if_neg hne0, zipWith_mul_map]
  have hvar : np_average
      (rows.map (fun r => ((r.1 : ℚ) - spec_weighted_mean rows) ^ 2))
      (rows.map (fun r => r.2)) = some (spec_weighted_variance rows) := by
    unfold np_average spec_weighted_variance
    rw [if_neg hne0, zipWith_mul_map,
      sum_map_mul_comm (fun r => ((r.1 : ℚ) - spec_weighted_mean rows) ^ 2)
        (fun r => r.2) rows]
  unfold weighted_avg_and_std
  rw [havg]
  dsimp only
  rw [hvar]

/-- The two rows of the spec's weighted-mean example:
(depth 0, frac 0.5), (depth 10, frac 0.5). -/
def avgExampleRows : List (ℤ × ℚ) := [(0, 1 / 2), (10, 1 / 2)]

/-- C2 witness: on the example rows the hypotheses hold and the function
returns mean 5 and standard deviation 5. -/
theorem C2_weighted_avg_and_std_formulas_witness :
    avgExampleRows ≠ [] ∧ 0 < ((avgExampleRows.map (fun r => r.2)).sum)
      ∧ weighted_avg_and_std avgExampleRows = some (5, 5) := by
  have h1 : avgExampleRows ≠ [] := by simp [avgExampleRows]
  have h2 : 0 < ((avgExampleRows.map (fun r => r.2)).sum) := by
    norm_num [avgExampleRows]
  refine ⟨h1, h2, ?_⟩
  rw [C2_weighted_avg_and_std_formulas avgExampleRows h1 h2]
  have hm : spec_weighted_mean avgExampleRows = 5 := by
    norm_num [spec_weighted_mean, avgExampleRows]
  have hv : spec_weighted_variance avgExampleRows = 25 := by
    unfold spec_weighted_variance
    rw [hm]
    norm_num [avgExampleRows]
  rw [hm, hv]
  have h25 : (((25 : ℚ)) : ℝ) = (5 : ℝ) ^ 2 := by norm_num
  rw [h25, Real.sqrt_sq (by norm_num : (0 : ℝ) ≤ 5)]

/-! ### Zero-coverage check (graphs_coverage.py lines 147-158,
graphs_coverage_REMODEL.py lines 247-251) -/

/-- graphs_coverage.py lines 147-154: scan the file's lines for the first row
with gnm "genome" and depth 0 and assign zero_coverage from its fraction
(True iff the fraction equals 1); when no such row exists the variable keeps
whatever value it had from the previous file (none models the still-unbound
state before the first assignment). -/
def gc_update_zero_coverage (prev : Option Bool) (rows : List CovRow) :
    Option Bool :=
  match rows.find? (fun r => r.gnm == "genome" && r.covDepth == 0) with
  | some r => some (decide (r.fracOnThisDepth = 1))
  | none => prev

/-- graphs_coverage.py line 158: evaluating the test "if not zero_coverage"
reads the flag; reading a still-unbound variable raises NameError (modelled
as error).  ok true means the file is skipped, ok false that it is
processed. -/
def gc_skip_decision (prev : Option Bool) (rows : List CovRow) :
    Except Unit Bool :=
  match gc_update_zero_coverage prev rows with
  | none => Except.error ()
  | some b => Except.ok b

/-- graphs_coverage_REMODEL.py line 249: the check
int(df.loc[(df[gnm] == genome) & (df[covDepth] == 0)][covDepth]) == 0.
int() of a one-element selection yields that element's covDepth; on any other
selection size it raises, modelled as error.  ok true means the file is
skipped (the branch does pass), ok false that it is processed. -/
def remodel_zero_check (rows : List CovRow) : Except Unit Bool :=
  match rows.filter (fun r => r.gnm == "genome" && r.covDepth == 0) with
  | [r] => Except.ok (decide (r.covDepth = 0))
  | _ => Except.error ()

/-- A file whose genome row at depth 0 has fraction 1 (no aligned bases). -/
def zeroCovFile : List CovRow := [⟨"genome", 0, 100, 100, 1⟩]

/-- A file whose genome row at depth 0 has fraction 1/2 (half the bases
covered), which the spec says must be retained and aggregated. -/
def halfCovFile : List CovRow :=
  [⟨"genome", 0, 50, 100, 1 / 2⟩, ⟨"genome", 1, 50, 100, 1 / 2⟩]

/-- C3: graphs_coverage.py skips the fraction-1 file and retains the
fraction-1/2 file, as the claim states; but graphs_coverage_REMODEL.py also
skips the fraction-1/2 file, because its check compares the selected
covDepth (always 0) with 0 instead of comparing the fraction with 1, so
every file having a genome depth-0 row is skipped regardless of coverage. -/
theorem C3_zero_coverage_check_divergence :
    gc_skip_decision none zeroCovFile = Except.ok true
      ∧ gc_skip_decision none halfCovFile = Except.ok false
      ∧ remodel_zero_check halfCovFile = Except.ok true := by
  refine ⟨?_, ?_, ?_⟩ <;>
    norm_num [gc_skip_decision, gc_update_zero_coverage, remodel_zero_check,
      zeroCovFile, halfCovFile, List.find?, List.filter,
      show ((1 : ℤ) == 0) = false from rfl]

/-- C10: in graphs_coverage.py the zero-coverage flag is assigned only when a
file contains a genome depth-0 row: for a file lacking such a row the skip
test reads an unbound variable (error) when no earlier file assigned the
flag, and silently reuses the most recent assignment b otherwise. -/
theorem C10_zero_coverage_flag_carryover (rows : List CovRow)
    (h : ∀ r ∈ rows, ¬(r.gnm = "genome" ∧ r.covDepth = 0)) :
    gc_skip_decision none rows = Except.error ()
      ∧ ∀ b : Bool, gc_skip_decision (some b) rows = Except.ok b := by
  have hf : rows.find? (fun r => r.gnm == "genome" && r.covDepth == 0)
      = none := by
    rw [List.find?_eq_none]
    intro r hr
    have hr2 := h r hr
    simp only [Bool.and_eq_true, beq_iff_eq, decide_eq_true_eq]
    tauto
  constructor
  · simp [gc_skip_decision, gc_update_zero_coverage, hf]
  · intro b
    simp [gc_skip_decision, gc_update_zero_coverage, hf]

/-- A file containing no genome depth-0 row at all. -/
def noGenomeFile : List CovRow := [⟨"seq1", 0, 100, 100, 1⟩]

/-- C10 witness: on a concrete file with no genome depth-0 row, the skip test
errors when the flag was never assigned, and reuses the carried value true
otherwise. -/
theorem C10_zero_coverage_flag_carryover_witness :
    (∀ r ∈ noGenomeFile, ¬(r.gnm = "genome" ∧ r.covDepth = 0))
      ∧ gc_skip_decision none noGenomeFile = Except.error ()
      ∧ gc_skip_decision (some true) noGenomeFile = Except.ok true := by
  have h : ∀ r ∈ noGenomeFile, ¬(r.gnm = "genome" ∧ r.covDepth = 0) := by
    decide
  exact ⟨h, (C10_zero_coverage_flag_carryover noGenomeFile h).1,
    (C10_zero_coverage_flag_carryover noGenomeFile h).2 true⟩

/-! ### Extension stripping (graphs_coverage.py lines 123-132 and 161-163,
graphs_coverage_REMODEL.py lines 114-123) -/

/-- Remove every occurrence of the pattern p from the character list s,
scanning left to right, as Python's str.replace(p, "") does.  The fuel
argument (instantiated with the length of s) only serves structural
termination and never runs out on that instantiation. -/
def removePatAux (p : List Char) : ℕ → List Char → List Char
  | _, [] => []
  | 0, s => s
  | fuel + 1, c :: rest =>
    if !p.isEmpty && p.isPrefixOf (c :: rest) then
      removePatAux p fuel ((c :: rest).drop p.length)
    else
      c :: removePatAux p fuel rest

/-- Python's s.replace(pattern, ""): remove every occurrence of pattern. -/
def pyRemoveAll (s pattern : String) : String :=
  ⟨removePatAux pattern.data s.data.length s.data⟩

/-- The characters of s before the first occurrence of p, i.e. Python's
s.split(p)[0] (the whole of s when p does not occur). -/
def takeBefore (p : List Char) : List Char → List Char
  | [] => []
  | c :: rest => if p.isPrefixOf (c :: rest) then [] else c :: takeBefore p rest

/-- Python's s.split("_vs_")[0]: keep only the portion before "_vs_". -/
def pySplitVsHead (s : String) : String := ⟨takeBefore "_vs_".data s.data⟩

/-- The known extensions, in source order: extensions = [".gz", ".fna"]
(graphs_coverage.py line 123, graphs_coverage_REMODEL.py lines 179-180). -/
def extensions : List String := [".gz", ".fna"]

/-- graphs_coverage.py lines 127-130: the loop
"for extension in extensions: filename_noext = filename_noext.replace(extension, '')"
applies each removal in sequence to the running result. -/
def gc_remove_extensions (filename : String) : String :=
  extensions.foldl (fun filename_noext extension =>
    pyRemoveAll filename_noext extension) filename

/-- remove_extension from graphs_coverage_REMODEL.py lines 114-123.  The loop
body reads the original argument, "filename_noext = filename.replace(extension, '')",
so each iteration discards the previous one and only the last extension's
removal survives; the fold's accumulator is therefore ignored. -/
def remove_extension (extension_list : List String) (filename : String) :
    String :=
  extension_list.foldl (fun _ extension => pyRemoveAll filename extension)
    filename

/-- graphs_coverage.py lines 161-163: a coverage filename is matched by
removing ".sam", keeping the portion before "_vs_", then stripping the known
extensions in sequence. -/
def gc_match_name (coverage_file : String) : String :=
  gc_remove_extensions (pySplitVsHead (pyRemoveAll coverage_file ".sam"))

/-- C5: graphs_coverage.py strips ".gz" then ".fna" in sequence, so
"abc.fna.gz" and "abc.gz" both resolve to "abc" (also after keeping the
portion before "_vs_" for coverage filenames); but remove_extension in
graphs_coverage_REMODEL.py restarts from the original filename on every
iteration, so only the last removal survives and "abc.fna.gz" resolves to
"abc.gz". -/
theorem C5_remove_extension_divergence :
    gc_remove_extensions "abc.fna.gz" = "abc"
      ∧ gc_remove_extensions "abc.gz" = "abc"
      ∧ gc_match_name "abc.fna.gz_vs_sample.sam" = "abc"
      ∧ remove_extension extensions "abc.fna.gz" = "abc.gz" := by
  refine ⟨?_, ?_, ?_, ?_⟩ <;> rfl

/-! ### Grouping by contig name (pandas groupby) and the collapse rule
(graphs_coverage.py lines 238-260, graphs_coverage_REMODEL.py lines 259-264) -/

/-- pandas df["gnm"].unique(): the distinct values in order of first
appearance. -/
def unique_in_order (l : List String) : List String :=
  l.foldl (fun acc x => if x ∈ acc then acc else acc ++ [x]) []

/-- The group keys of pandas df.groupby("gnm"): the distinct gnm values in
ascending sorted order (groupby sorts its keys by default). -/
def pandas_groupby_keys (rows : List CovRow) : List String :=
  List.insertionSort (fun a b => a ≤ b)
    (unique_in_order (rows.map (fun r => r.gnm)))

/-- graphs_coverage.py lines 238-260: the groupby loop appends exactly one
output row per group, with no condition, so the emitted gnm keys are the
group keys themselves. -/
def gc_emitted_gnms (rows : List CovRow) : List String :=
  pandas_groupby_keys rows

/-- graphs_coverage_REMODEL.py lines 259-264: the groupby loop passes
(emits nothing) when the group is "genome" and the file has exactly two
distinct gnm values, and appends one row per group otherwise. -/
def remodel_emitted_gnms (rows : List CovRow) : List String :=
  (pandas_groupby_keys rows).filter (fun name =>
    !(name == "genome"
      && (unique_in_order (rows.map (fun r => r.gnm))).length == 2))

/-- A retained file with exactly the two contig names "genome" and "seq1". -/
def twoContigFile : List CovRow :=
  [⟨"genome", 0, 50, 100, 1 / 2⟩, ⟨"genome", 1, 50, 100, 1 / 2⟩,
   ⟨"seq1", 0, 50, 100, 1 / 2⟩, ⟨"seq1", 1, 50, 100, 1 / 2⟩]

/-- C4 counterexample: on a file with exactly the contigs "genome" and
"seq1", the groupby loop of graphs_coverage.py emits two rows — the
"genome" aggregate is not dropped — so the claim's "exactly one output row"
is false for that script. -/
theorem C4_genome_row_not_dropped_counterexample :
    gc_emitted_gnms twoContigFile = ["genome", "seq1"]
      ∧ (gc_emitted_gnms twoContigFile).length ≠ 1 := by
  have hg : ("genome" : String) ≤ "seq1" :=
    String.le_iff_toList_le.mpr (by decide)
  have hk : gc_emitted_gnms twoContigFile = ["genome", "seq1"] := by
    unfold gc_emitted_gnms pandas_groupby_keys
    rw [show unique_in_order (twoContigFile.map (fun r => r.gnm))
        = ["genome", "seq1"] from rfl]
    simp [List.insertionSort, List.orderedInsert, hg]
  exact ⟨hk, by rw [hk]; decide⟩

/-- C4 amended: only graphs_coverage_REMODEL.py implements the collapse
rule: when a file's histogram has exactly two distinct contig names of which
one is "genome", its groupby loop drops the "genome" aggregate and emits
exactly the named contig's row; graphs_coverage.py emits both rows. -/
theorem C4_remodel_collapse_rule (rows : List CovRow) (c : String)
    (hc : c ≠ "genome")
    (h : unique_in_order (rows.map (fun r => r.gnm)) = ["genome", c]
       ∨ unique_in_order (rows.map (fun r => r.gnm)) = [c, "genome"]) :
    remodel_emitted_gnms rows = [c] := by
  have hcb : (c == "genome") = false := beq_eq_false_iff_ne.mpr hc
  rcases h with h | h <;>
  · unfold remodel_emitted_gnms pandas_groupby_keys
    rw [h]
    simp only [List.insertionSort, List.orderedInsert]
    split_ifs <;> simp [List.filter, hcb]

/-- C4 witness: on the concrete two-contig file the hypotheses hold and the
REMODEL groupby loop emits exactly the row for "seq1". -/
theorem C4_remodel_collapse_rule_witness :
    ("seq1" : String) ≠ "genome"
      ∧ unique_in_order (twoContigFile.map (fun r => r.gnm))
          = ["genome", "seq1"]
      ∧ remodel_emitted_gnms twoContigFile = ["seq1"] := by
  have h1 : ("seq1" : String) ≠ "genome" := by decide
  have h2 : unique_in_order (twoContigFile.map (fun r => r.gnm))
      = ["genome", "seq1"] := rfl
  exact ⟨h1, h2,
    C4_remodel_collapse_rule twoContigFile "seq1" h1 (Or.inl h2)⟩

/-! ### Threshold fractions (graphs_coverage.py lines 258-260,
graphs_coverage_REMODEL.py lines 294-300) -/

/-- df_grouped.FracOnThisDepth[df_grouped["covDepth"] >= t].sum(): the sum of
the fractions over the rows whose depth is at least t. -/
def threshold_frac (rows : List CovRow) (t : ℤ) : ℚ :=
  ((rows.filter (fun r => decide (t ≤ r.covDepth))).map
    (fun r => r.fracOnThisDepth)).sum

theorem threshold_frac_mono :
    ∀ (rows : List CovRow), (∀ r ∈ rows, 0 ≤ r.fracOnThisDepth) →
      ∀ (t1 t2 : ℤ), t1 ≤ t2 →
      threshold_frac rows t2 ≤ threshold_frac rows t1
  | [], _, _, _, _ => le_refl _
  | r :: rs, h, t1, t2, ht => by
    have hr := h r (List.mem_cons_self r rs)
    have hrs : ∀ x ∈ rs, 0 ≤ x.fracOnThisDepth :=
      fun x hx => h x (List.mem_cons_of_mem r hx)
    have ih := threshold_frac_mono rs hrs t1 t2 ht
    by_cases h2 : t2 ≤ r.covDepth
    · have h1 : t1 ≤ r.covDepth := le_trans ht h2
      simp only [threshold_frac, List.filter_cons, decide_eq_true_eq]
      rw [if_pos h2, if_pos h1]
      simp only [List.map_cons, List.sum_cons]
      exact add_le_add_left ih _
    · by_cases h1 : t1 ≤ r.covDepth
      · simp only [threshold_frac, List.filter_cons, decide_eq_true_eq]
        rw [if_neg h2, if_pos h1]
        simp only [List.map_cons, List.sum_cons]
        exact le_trans ih (le_add_of_nonneg_left hr)
      · simp only [threshold_frac, List.filter_cons, decide_eq_true_eq]
        rw [if_neg h2, if_neg h1]
        exact ih

/-- C8: for every contig group with non-negative fractions the emitted
threshold fractions are non-increasing as the threshold grows through
1, 10, 25, 50, 75, 100. -/
theorem C8_threshold_fracs_antitone (rows : List CovRow)
    (h : ∀ r ∈ rows, 0 ≤ r.fracOnThisDepth) :
    threshold_frac rows 10 ≤ threshold_frac rows 1
      ∧ threshold_frac rows 25 ≤ threshold_frac rows 10
      ∧ threshold_frac rows 50 ≤ threshold_frac rows 25
      ∧ threshold_frac rows 75 ≤ threshold_frac rows 50
      ∧ threshold_frac rows 100 ≤ threshold_frac rows 75 :=
  ⟨threshold_frac_mono rows h 1 10 (by norm_num),
   threshold_frac_mono rows h 10 25 (by norm_num),
   threshold_frac_mono rows h 25 50 (by norm_num),
   threshold_frac_mono rows h 50 75 (by norm_num),
   threshold_frac_mono rows h 75 100 (by norm_num)⟩

/-- C8 witness: the two-contig file has non-negative fractions and its
threshold fractions are non-increasing. -/
theorem C8_threshold_fracs_antitone_witness :
    (∀ r ∈ twoContigFile, 0 ≤ r.fracOnThisDepth)
      ∧ (threshold_frac twoContigFile 10 ≤ threshold_frac twoContigFile 1
      ∧ threshold_frac twoContigFile 25 ≤ threshold_frac twoContigFile 10
      ∧ threshold_frac twoContigFile 50 ≤ threshold_frac twoContigFile 25
      ∧ threshold_frac twoContigFile 75 ≤ threshold_frac twoContigFile 50
      ∧ threshold_frac twoContigFile 100 ≤ threshold_frac twoContigFile 75) := by
  have h : ∀ r ∈ twoContigFile, 0 ≤ r.fracOnThisDepth := by
    intro r hr
    simp only [twoContigFile, List.mem_cons, List.not_mem_nil, or_false] at hr
    rcases hr with rfl | rfl | rfl | rfl <;> norm_num
  exact ⟨h, C8_threshold_fracs_antitone twoContigFile h⟩

/-! ### Output table column and row order (graphs_coverage_REMODEL.py lines
183-199 and 308-309, graphs_coverage.py lines 136-137 and 277-278) -/

/-- The keys of the output_data dict of graphs_coverage_REMODEL.py lines
183-199 in insertion order, which is the column order of the serialized
table (pd.DataFrame.from_dict keeps dict insertion order, line 308).
graphs_coverage.py lines 136-137 uses the same relative order with only the
thresholds 1, 50, 100 and no assembly column. -/
def output_data_columns : List String :=
  ["gnm", "species", "subspecies", "covMean", "covSD", "covMin", "covMax",
   "covMedian", ">=x1", ">=x10", ">=x25", ">=x50", ">=x75", ">=x100",
   "assembly"]

/-- The column order asserted by the spec, written from its words for
comparison: covMedian between covSD and covMin. -/
def spec_table_columns : List String :=
  ["gnm", "species", "subspecies", "covMean", "covSD", "covMedian", "covMin",
   "covMax", ">=x1", ">=x10", ">=x25", ">=x50", ">=x75", ">=x100",
   "assembly"]

/-- A file whose contigs appear in the order seq2, seq1. -/
def appearanceFile : List CovRow :=
  [⟨"seq2", 0, 100, 100, 1⟩, ⟨"seq1", 0, 100, 100, 1⟩]

/-- C9 counterexample: the serialized column order differs from the claimed
one (covMedian comes after covMax, not before covMin), and rows within a
file follow sorted contig order, not appearance order: a file whose contigs
appear as seq2, seq1 is emitted as seq1, seq2. -/
theorem C9_column_and_row_order_counterexample :
    output_data_columns ≠ spec_table_columns
      ∧ unique_in_order (appearanceFile.map (fun r => r.gnm))
          = ["seq2", "seq1"]
      ∧ pandas_groupby_keys appearanceFile = ["seq1", "seq2"] := by
  have hn : ¬ (("seq2" : String) ≤ "seq1") := fun hle =>
    (by decide : ¬ ("seq2".toList ≤ "seq1".toList))
      (String.le_iff_toList_le.mp hle)
  refine ⟨by decide, rfl, ?_⟩
  unfold pandas_groupby_keys
  rw [show unique_in_order (appearanceFile.map (fun r => r.gnm))
      = ["seq2", "seq1"] from rfl]
  simp [List.insertionSort, List.orderedInsert, hn]

/-- C9 amended: the serialized columns are the same fifteen the spec lists
but with covMedian after covMax (index 7, with covMin at 5 and covMax at 6),
and within each file the emitted rows follow ascending sorted contig-name
order — a permutation of the appearance order — because pandas groupby sorts
its group keys. -/
theorem C9_table_order (rows : List CovRow) :
    output_data_columns.Perm spec_table_columns
      ∧ output_data_columns.indexOf "covMedian" = 7
      ∧ output_data_columns.indexOf "covMin" = 5
      ∧ output_data_columns.indexOf "covMax" = 6
      ∧ List.Sorted (fun a b : String => a ≤ b) (pandas_groupby_keys rows)
      ∧ (pandas_groupby_keys rows).Perm
          (unique_in_order (rows.map (fun r => r.gnm))) := by
  refine ⟨by decide, by decide, by decide, by decide, ?_, ?_⟩
  · exact List.sorted_insertionSort _ _
  · exact List.perm_insertionSort _ _

/-! ### Reference-sheet header resolution (graphs_coverage.py lines 93-118,
graphs_coverage_REMODEL.py lines 67-112) -/

/-- The file-name header synonyms (graphs_coverage.py line 93). -/
def file_headers : List String := ["filename", "file_name", "file-name", "file"]

/-- The species header synonyms (graphs_coverage.py line 94). -/
def species_name_headers : List String :=
  ["scientific_name", "organism_name", "organism", "species_name", "species"]

/-- The subspecies header synonyms (graphs_coverage.py line 95). -/
def subspecies_name_headers : List String :=
  ["intraespecific_name", "subspecies_name", "strain", "subspecies"]

/-- Python's item.lower(), for the ASCII header names in play. -/
def str_to_lower (s : String) : String := ⟨s.data.map Char.toLower⟩

/-- The three column-index variables after the header scan; none models a
variable that was never assigned. -/
structure HeaderScan where
  fileCol : Option ℕ
  speciesCol : Option ℕ
  subspeciesCol : Option ℕ
deriving DecidableEq

/-- graphs_coverage.py lines 97-106: every item of every header line is
checked against the synonym sets (an elif chain), and a match assigns the
corresponding variable to single_header.index(item), the index of the first
occurrence of that value in the line.  verify_detect_headers in
graphs_coverage_REMODEL.py lines 80-90 runs the same scan (it checks the
species synonyms first, but the synonym sets are disjoint so the order is
immaterial). -/
def scan_headers (headers : List (List String)) : HeaderScan :=
  headers.foldl (fun st single_header =>
    single_header.foldl (fun st item =>
      if str_to_lower item ∈ file_headers then
        { st with fileCol := some (single_header.indexOf item) }
      else if str_to_lower item ∈ species_name_headers then
        { st with speciesCol := some (single_header.indexOf item) }
      else if str_to_lower item ∈ subspecies_name_headers then
        { st with subspeciesCol := some (single_header.indexOf item) }
      else st) st) ⟨none, none, none⟩

/-- The observable outcome of the post-scan check: proceed towards exit 0;
print the messages for the flagged roles and sys.exit(1); or die with an
uncaught NameError (exit status 1, but no role-naming message printed). -/
inductive HeaderCheckResult where
  | proceed
  | exitWithMessages (missingFileMsg missingSpeciesMsg missingSubspeciesMsg :
      Bool)
  | nameError
deriving DecidableEq

/-- graphs_coverage.py lines 109-118: the test "if not file_column_index or
not species_column_index or not subspecies_column_index" with Python
semantics: "not x" on an int is true iff x == 0 and raises NameError when x
was never assigned; "or" short-circuits; the taken branch re-reads each
variable to decide which messages to print before sys.exit(1).  nameError
covers every path that reads an unbound variable (the except-branch of
verify_detect_headers in graphs_coverage_REMODEL.py lines 96-110 re-reads
the unbound variables the same way, so its intended messages are equally
unreachable). -/
def gc_header_check (st : HeaderScan) : HeaderCheckResult :=
  match st.fileCol with
  | none => HeaderCheckResult.nameError
  | some f =>
    if f == 0 then
      match st.speciesCol, st.subspeciesCol with
      | some s, some ss =>
        HeaderCheckResult.exitWithMessages true (s == 0) (ss == 0)
      | _, _ => HeaderCheckResult.nameError
    else
      match st.speciesCol with
      | none => HeaderCheckResult.nameError
      | some s =>
        if s == 0 then
          match st.subspeciesCol with
          | some ss => HeaderCheckResult.exitWithMessages false true (ss == 0)
          | none => HeaderCheckResult.nameError
        else
          match st.subspeciesCol with
          | none => HeaderCheckResult.nameError
          | some ss =>
            if ss == 0 then HeaderCheckResult.exitWithMessages false false true
            else HeaderCheckResult.proceed

/-- The header lines of a reference sheet naming species and strain columns
but no file-name column (header lines start with the comment mark, so the
field at index 0 can never equal a bare synonym). -/
def headersMissingFile : List (List String) := [["#", "species", "strain"]]

/-- C6: the claim fails on the code: with the file-name role unresolved the
check reads an unbound variable and dies with NameError before printing any
role-naming message (the message-printing branch is dead code), and a role
resolved at column index 0 would make the check print "not found" messages
and exit 1 instead of proceeding; only the all-resolved, all-nonzero state
proceeds. -/
theorem C6_header_check_divergence :
    scan_headers headersMissingFile = ⟨none, some 1, some 2⟩
      ∧ gc_header_check (scan_headers headersMissingFile)
          = HeaderCheckResult.nameError
      ∧ gc_header_check ⟨some 0, some 1, some 2⟩
          = HeaderCheckResult.exitWithMessages true false false
      ∧ gc_header_check ⟨some 1, some 2, some 3⟩
          = HeaderCheckResult.proceed := by
  refine ⟨?_, ?_, ?_, ?_⟩ <;> rfl

/-! ### Reference join across coverage files (graphs_coverage.py lines
120-132, 140, 158-176 and 238-257; graphs_coverage_REMODEL.py lines
273-278) -/

/-- One data line of the reference sheet after column extraction:
species, subspecies, filename (graphs_coverage.py line 120). -/
structure RefRec where
  species : String
  subspecies : String
  filename : String
deriving DecidableEq

/-- graphs_coverage.py lines 125-132: species_data_noext, the reference rows
with the known extensions stripped in sequence from the filename. -/
def gc_species_data_noext (species_data : List RefRec) : List RefRec :=
  species_data.map (fun item =>
    ⟨item.species, item.subspecies, gc_remove_extensions item.filename⟩)

/-- The species, subspecies and combined spp label variables of
graphs_coverage.py lines 169-176, assigned only inside a reference match. -/
structure SppLabels where
  species : String
  subspecies : String
  spp : String
deriving DecidableEq

/-- graphs_coverage.py lines 165-176: the loop over species_data_noext
assigns species, subspecies and spp on every reference row whose stripped
filename equals the match name (an empty subspecies becomes the "--"
sentinel and spp the species alone); rows that do not match leave the
variables as they were, so after the loop they hold the last match or carry
over from a previous file (none when nothing was ever assigned). -/
def gc_resolve_spp (refs : List RefRec) (prev : Option SppLabels)
    (matchName : String) : Option SppLabels :=
  refs.foldl (fun st name =>
    if name.filename == matchName then
      if name.subspecies == "" then
        some ⟨name.species, "--", name.species⟩
      else
        some ⟨name.species, name.subspecies,
          name.species ++ " " ++ name.subspecies⟩
    else st) prev

/-- graphs_coverage.py lines 238-257: for a retained file the stats loop
runs unconditionally — whether or not the reference loop matched — and
appends one row per contig group, renaming the genome group to
"{spp} genome" and labelling every row with the current species and
subspecies variables; reading them while still unassigned raises NameError
(error).  Only the columns relevant to the reference join are modelled:
(gnm, species, subspecies). -/
def gc_file_out_rows (st : Option SppLabels) (rows : List CovRow) :
    Except Unit (List (String × String × String)) :=
  match st, pandas_groupby_keys rows with
  | _, [] => Except.ok []
  | none, _ :: _ => Except.error ()
  | some lab, keys =>
    Except.ok (keys.map (fun name =>
      (if name == "genome" then lab.spp ++ " genome" else name,
       lab.species, lab.subspecies)))

/-- graphs_coverage.py lines 140-260 restricted to the reference join and
row emission: each coverage file first updates the zero-coverage flag,
skipped files emit nothing, and retained files resolve the species variables
by filename match — keeping the previous values when nothing matches — and
append one (gnm, species, subspecies) row per contig group. -/
def gc_run (refs : List RefRec) (zc : Option Bool) (st : Option SppLabels) :
    List (String × List CovRow) →
      Except Unit (List (String × String × String))
  | [] => Except.ok []
  | (fname, rows) :: rest =>
    match gc_update_zero_coverage zc rows with
    | none => Except.error ()
    | some true => gc_run refs (some true) st rest
    | some false =>
      match gc_file_out_rows
          (gc_resolve_spp (gc_species_data_noext refs) st
            (gc_match_name fname)) rows with
      | Except.error _ => Except.error ()
      | Except.ok out =>
        match gc_run refs (some false)
            (gc_resolve_spp (gc_species_data_noext refs) st
              (gc_match_name fname)) rest with
        | Except.error _ => Except.error ()
        | Except.ok outRest => Except.ok (out ++ outRest)

/-- graphs_coverage_REMODEL.py lines 276-278: species_data[assembly_name] on
the reference dictionary; a missing key raises an uncaught KeyError (error),
aborting the whole run rather than skipping the file. -/
def remodel_species_lookup
    (species_data : List (String × String × String))
    (assembly_name : String) : Except Unit (String × String) :=
  match species_data.find? (fun p => p.1 == assembly_name) with
  | some p => Except.ok p.2
  | none => Except.error ()

/-- The reference sheet with a single assembly abc.fna.gz. -/
def refSheet : List RefRec := [⟨"Escherichia coli", "", "abc.fna.gz"⟩]

/-- A retained coverage file (its genome depth-0 row has fraction 0). -/
def coveredFile : List CovRow :=
  [⟨"genome", 0, 0, 100, 0⟩, ⟨"genome", 5, 100, 100, 1⟩]

/-- Two coverage files: the first matches reference assembly abc, the second
derives assembly id zzz which has no reference entry. -/
def coverageInputs : List (String × List CovRow) :=
  [("abc_vs_sample.sam", coveredFile), ("zzz_vs_sample.sam", coveredFile)]

/-- C7: the claim fails on the code.  The id zzz derived from the second
file matches no reference entry, yet graphs_coverage.py still emits that
file's row, silently labelled with the species of the previously matched
file (no skip, no warning); and graphs_coverage_REMODEL.py raises an
uncaught KeyError on the missing id, which is fatal to the run rather than
a per-file skip. -/
theorem C7_unmatched_file_not_skipped :
    (∀ r ∈ gc_species_data_noext refSheet,
        r.filename ≠ gc_match_name "zzz_vs_sample.sam")
      ∧ gc_run refSheet none none coverageInputs
          = Except.ok
              [("Escherichia coli genome", "Escherichia coli", "--"),
               ("Escherichia coli genome", "Escherichia coli", "--")]
      ∧ remodel_species_lookup [("abc", "Escherichia coli", "")] "zzz"
          = Except.error () := by
  refine ⟨by decide, ?_, ?_⟩ <;> rfl

end Pikavirus
